import Mathlib

/-!
Verification development for a pair of tutorial notebooks that open,
inspect, crop, threshold-filter, save and vectorize a geospatial raster
(a population grid).  The notebooks are linear scripts over external
geospatial libraries; this file gives a shallow embedding of the data
they manipulate (bands, profiles, windows, affine transforms, a file
store) and of the two notebook pipelines, and proves the stated
properties about them.

Cell values of a band are modelled as rationals: the raster's float32
cells are exactly representable as rationals, and the only operations
the notebooks apply to cell values (comparison with 5000, substitution
by -200, truncation to int32) agree exactly with their rational
counterparts on representable values.
-/

/-- A cell value of a raster band (float32 in the source data, modelled
exactly as a rational). -/
abbrev Cell := ℚ

/-- A raster band: a matrix of cells, row major, as read by
`dataset.read(1)`. -/
abbrev Band := List (List Cell)

/-- Number of rows of a band (`band.shape[0]` in the source). -/
def bandHeight (b : Band) : Nat := b.length

/-- Number of columns of a band (`band.shape[1]` in the source). -/
def bandWidth (b : Band) : Nat := (b.headD []).length

/-- The list of row lengths of a band; two bands with the same shape
have the same value here. -/
def bandShape (b : Band) : List Nat := b.map List.length

/-- Cell at row `i`, column `j` (defaulting to `0` out of range). -/
def cellD (b : Band) (i j : Nat) : Cell := (b.getD i []).getD j 0

/-- A six-parameter affine transform mapping grid row/column indices to
projected spatial coordinates (the `a b c d e f` layout described in
the notebooks). -/
structure Affine where
  a : ℚ
  b : ℚ
  c : ℚ
  d : ℚ
  e : ℚ
  f : ℚ
  deriving DecidableEq, Repr

/-- A read window: column/row offsets and extent, as returned by
`raster_geometry_mask` with `crop=True` and accepted by `read`. -/
structure Window where
  col_off : Nat
  row_off : Nat
  width : Nat
  height : Nat
  deriving DecidableEq, Repr

/-- A raster profile (the `dataset.profile` mapping): the named fields
the notebooks touch or print, plus an association list for the
remaining creation options carried opaquely. -/
structure Profile where
  driver : String
  dtype : String
  nodata : Cell
  width : Nat
  height : Nat
  count : Nat
  crs : String
  transform : Affine
  extra : List (String × String)
  deriving DecidableEq, Repr

/-- The source's `profile.update(transform=aff, height=h, width=w)`:
replace exactly those three keys of the profile mapping, keep every
other entry. -/
def Profile.update (p : Profile) (aff : Affine) (h w : Nat) : Profile :=
  { p with transform := aff, height := h, width := w }

/-- An opened raster dataset: its profile and its single band of data
(the example file has `count = 1`). -/
structure Dataset where
  profile : Profile
  band1 : Band
  deriving DecidableEq, Repr

/-- The bounds attribute `(left, bottom, right, top)` derived from the
transform and the grid size, as printed by the metadata cell. -/
def Dataset.boundsQ (d : Dataset) : ℚ × ℚ × ℚ × ℚ :=
  (d.profile.transform.c,
   d.profile.transform.f + d.profile.transform.e * d.profile.height,
   d.profile.transform.c + d.profile.transform.a * d.profile.width,
   d.profile.transform.f)

/-- The attributes printed by the metadata cell: layer count, width,
height, CRS, affine transform and bounds. -/
def Dataset.metaAttrs (d : Dataset) :
    Nat × Nat × Nat × String × Affine × (ℚ × ℚ × ℚ × ℚ) :=
  (d.profile.count, d.profile.width, d.profile.height, d.profile.crs,
   d.profile.transform, d.boundsQ)

/-- The source's `dataset.read(1)`: the full first band. -/
def Dataset.read1 (d : Dataset) : Band := d.band1

/-- Restriction of a band to a window: rows `row_off ..< row_off+height`,
columns `col_off ..< col_off+width`. -/
def readWindow (b : Band) (w : Window) : Band :=
  ((b.drop w.row_off).take w.height).map
    (fun row => (row.drop w.col_off).take w.width)

/-- The source's `dataset.read(1, window=window)`. -/
def Dataset.read1w (d : Dataset) (w : Window) : Band :=
  readWindow d.band1 w

/-- The rectangle built by `shapely.box(minx, miny, maxx, maxy)`. -/
structure BoxGeom where
  minx : ℚ
  miny : ℚ
  maxx : ℚ
  maxy : ℚ
  deriving DecidableEq, Repr

/-- A GeoDataFrame holding geometries together with their CRS, as built
by `gpd.GeoDataFrame(geometry=[...], crs=...)`. -/
structure GeoFrame where
  crs : String
  geoms : List BoxGeom
  deriving DecidableEq, Repr

/-- The thresholding applied to one cell: `np.where(x > 5000, x, -200)`
elementwise.  Keep the value when strictly above 5000, otherwise
substitute the nodata sentinel -200. -/
def fcell (x : Cell) : Cell := if 5000 < x then x else -200

/-- The source's `filtered_band = np.where(band_cropped > 5000,
band_cropped, -200)`: the elementwise substitution over the whole
band. -/
def filtered_band (band_cropped : Band) : Band :=
  band_cropped.map (List.map fcell)

/-- Truncation of a rational toward zero, the behaviour of numpy's C
style float-to-int cast on in-range values.  Out-of-range float32 to
int32 conversion has no defined result in the source libraries and is
not modelled. -/
def truncToInt (q : ℚ) : Int := if 0 ≤ q then q.floor else q.ceil

/-- The source's `.astype("int32")` on a 2-D array: elementwise
truncation toward zero. -/
def astypeInt32 (b : Band) : List (List Int) :=
  b.map (List.map truncToInt)

/-- The labeled array (`xarray.DataArray` with rioxarray attributes)
passed to `vectorize`: integer data plus optional nodata, transform and
CRS attributes, each set by one chained call in the source. -/
structure XArr where
  data : List (List Int)
  nodata : Option Int
  transform : Option Affine
  crs : Option String
  deriving DecidableEq, Repr

/-- The source's `xr.DataArray(filtered_band).astype("int32")`: a
labeled array holding the cast data, with no spatial attributes yet. -/
def xrDataArrayInt32 (b : Band) : XArr :=
  { data := astypeInt32 b, nodata := none, transform := none, crs := none }

/-- The source's `.rio.write_nodata(n)`. -/
def XArr.write_nodata (x : XArr) (n : Int) : XArr :=
  { x with nodata := some n }

/-- The source's `.rio.write_transform(aff)`. -/
def XArr.write_transform (x : XArr) (aff : Affine) : XArr :=
  { x with transform := some aff }

/-- The source's `.rio.set_crs(crs, inplace=True)`. -/
def XArr.set_crs (x : XArr) (c : String) : XArr :=
  { x with crs := some c }

/-- The vector frame returned by `vectorize`: column names plus rows of
(label, polygon) pairs, polygons as vertex lists. -/
structure GdfModel where
  colNames : List String
  rows : List (Int × List (ℚ × ℚ))
  deriving DecidableEq, Repr

/-- The source's `gdf.columns = ["label", "geometry"]`. -/
def renameCols (g : GdfModel) : GdfModel :=
  { g with colNames := ["label", "geometry"] }

/-- The files on disk that the notebook writes: path to (profile, band
data), most recent write first.  Models the GeoTIFF persistence of the
external raster library: `rio.open(path, "w", **profile)` followed by
`w.write(band, 1)` stores the profile and the band at the path, and
re-opening the path returns them. -/
abbrev FileStore := List (String × (Profile × Band))

/-- Look a path up in the file store (most recent write wins). -/
def findFile : FileStore → String → Option (Profile × Band)
  | [], _ => none
  | (p, v) :: rest, q => if q = p then some v else findFile rest q

/-- Writing a raster file: `rio.open(path, "w", **profile)` plus
`w.write(band, 1)`. -/
def writeFile (s : FileStore) (path : String) (p : Profile) (b : Band) :
    FileStore :=
  (path, (p, b)) :: s

/-- Re-opening a written raster file as a dataset. -/
def openFile (s : FileStore) (path : String) : Option Dataset :=
  (findFile s path).map (fun pb => { profile := pb.1, band1 := pb.2 })

/-- Relative path of the input raster file,
`os.path.join(here("data"), "GHS_POP_...tif")`. -/
def inputPath : String :=
  "data/GHS_POP_E2020_GLOBE_R2023A_54009_1000_V1_0_R3_C18.tif"

/-- Relative path of the output raster file,
`here("data/modified_raster.tif")`. -/
def outputPath : String := "data/modified_raster.tif"

/-- The bounding box around the Bristol channel,
`bbox = [-3.6955, 51.1869, -2.3002, 51.9855]`. -/
def bristolBBox : List ℚ :=
  [-36955 / 10000, 511869 / 10000, -23002 / 10000, 519855 / 10000]

/-- The source's `gpd.GeoDataFrame(geometry=[box(*bbox)],
crs="EPSG: 4326")`: one rectangle with the WGS84 CRS string used in the
notebooks. -/
def bboxFrameWGS84 : GeoFrame :=
  { crs := "EPSG: 4326",
    geoms := [{ minx := -36955 / 10000, miny := 511869 / 10000,
                maxx := -23002 / 10000, maxy := 519855 / 10000 }] }

/-- Environment of external-library behaviour the notebooks depend on:
the dataset the input file opens to, the coordinate reprojection, the
geometry-masking routine, the vectorization routine, and the initial
contents of the data directory.  The notebooks call these; they do not
implement them. -/
structure Env where
  inputDataset : Dataset
  to_crs : GeoFrame → String → GeoFrame
  raster_geometry_mask :
    Dataset → List BoxGeom → Bool → Bool →
      (List (List Bool)) × Affine × Window
  vectorizeFn : XArr → GdfModel
  store0 : FileStore

/-- Values computed by the shorter notebook (`raster.ipynb`): open,
print metadata, read the band, reproject the bounding box, compute the
crop window, read the cropped band. -/
structure ShortRun where
  dataset : Dataset
  printedMeta : Nat × Nat × Nat × String × Affine × (ℚ × ℚ × ℚ × ℚ)
  band : Band
  bbox_gdf : GeoFrame
  aff : Affine
  window : Window
  band_cropped : Band
  deriving Repr

/-- The shorter notebook `raster.ipynb`, cell by cell: `rio.open` on the
input file, the metadata prints, `dataset.read(1)`, the Bristol-channel
bounding box reprojected from EPSG:4326 to ESRI:54009,
`raster_geometry_mask(dataset, bbox_gdf.geometry.values, crop=True,
all_touched=True)`, and `dataset.read(1, window=window)`. -/
def runShort (env : Env) : ShortRun :=
  let dataset := env.inputDataset
  let printedMeta := dataset.metaAttrs
  let band := dataset.read1
  let bbox_gdf := env.to_crs bboxFrameWGS84 "ESRI: 54009"
  let masked := env.raster_geometry_mask dataset bbox_gdf.geoms true true
  let aff := masked.2.1
  let window := masked.2.2
  let band_cropped := dataset.read1w window
  { dataset := dataset, printedMeta := printedMeta, band := band,
    bbox_gdf := bbox_gdf, aff := aff, window := window,
    band_cropped := band_cropped }

/-- Values computed by the longer notebook (the filtering, saving and
vectorizing one): everything the shorter notebook computes, plus the
filtered band, the updated profile, the file store after the write, the
re-read dataset, the labeled array and the vector frame. -/
structure LongRun where
  dataset : Dataset
  printedMeta : Nat × Nat × Nat × String × Affine × (ℚ × ℚ × ℚ × ℚ)
  band : Band
  bbox_gdf : GeoFrame
  aff : Affine
  window : Window
  band_cropped : Band
  filtered : Band
  outProfile : Profile
  store : FileStore
  reread : Option Dataset
  x_array : XArr
  gdf : GdfModel
  deriving Repr

/-- The longer notebook, cell by cell.  The first five cells coincide
with `raster.ipynb`; then `filtered_band = np.where(band_cropped >
5000, band_cropped, -200)`, `profile = dataset.profile` updated with
the crop transform and the filtered band's shape, the write of
`modified_raster.tif`, its re-read, the labeled-array chain
`xr.DataArray(filtered_band).astype("int32").rio.write_nodata(-200)
.rio.write_transform(aff).rio.set_crs("ESRI: 54009")`, and
`vectorize` followed by the column rename. -/
def runLong (env : Env) : LongRun :=
  let dataset := env.inputDataset
  let printedMeta := dataset.metaAttrs
  let band := dataset.read1
  let bbox_gdf := env.to_crs bboxFrameWGS84 "ESRI: 54009"
  let masked := env.raster_geometry_mask dataset bbox_gdf.geoms true true
  let aff := masked.2.1
  let window := masked.2.2
  let band_cropped := dataset.read1w window
  let filtered := filtered_band band_cropped
  let outProfile :=
    dataset.profile.update aff (bandHeight filtered) (bandWidth filtered)
  let store := writeFile env.store0 outputPath outProfile filtered
  let reread := openFile store outputPath
  let x_array :=
    (((xrDataArrayInt32 filtered).write_nodata (-200)).write_transform
        aff).set_crs "ESRI: 54009"
  let gdf := renameCols (env.vectorizeFn x_array)
  { dataset := dataset, printedMeta := printedMeta, band := band,
    bbox_gdf := bbox_gdf, aff := aff, window := window,
    band_cropped := band_cropped, filtered := filtered,
    outProfile := outProfile, store := store, reread := reread,
    x_array := x_array, gdf := gdf }

/-- Failures the external libraries can raise at the notebook's call
sites: a missing or unreadable file, an invalid CRS, bad window
bounds, or any other library error. -/
inductive ExtErr where
  | fileError (msg : String)
  | crsError (msg : String)
  | windowError (msg : String)
  | libError (msg : String)
  deriving DecidableEq, Repr

/-- Environment for the failure analysis: the same external calls, each
allowed to raise.  The notebooks contain no try/except, so every raise
must surface unchanged. -/
structure EnvE where
  openInput : String → Except ExtErr Dataset
  to_crsE : GeoFrame → String → Except ExtErr GeoFrame
  raster_geometry_maskE :
    Dataset → List BoxGeom → Bool → Bool →
      Except ExtErr ((List (List Bool)) × Affine × Window)
  readBandE : Dataset → Nat → Except ExtErr Band
  readBandWindowE : Dataset → Nat → Window → Except ExtErr Band
  writeOutput : String → Profile → Band → Except ExtErr Unit
  openOutput : String → Except ExtErr Dataset
  vectorizeE : XArr → Except ExtErr GdfModel
  renderE : GdfModel → Except ExtErr Unit

/-- The longer notebook with every external call fallible, exactly in
source order; the notebook adds no handler, so the first failure is the
result. -/
def runNotebookE (env : EnvE) :
    Except ExtErr (Band × Window × Band × Band × Profile × Band × GdfModel) := do
  let dataset ← env.openInput inputPath
  let band ← env.readBandE dataset 1
  let bbox_gdf ← env.to_crsE bboxFrameWGS84 "ESRI: 54009"
  let masked ← env.raster_geometry_maskE dataset bbox_gdf.geoms true true
  let window := masked.2.2
  let band_cropped ← env.readBandWindowE dataset 1 window
  let filtered := filtered_band band_cropped
  let outProfile :=
    dataset.profile.update masked.2.1 (bandHeight filtered)
      (bandWidth filtered)
  let _ ← env.writeOutput outputPath outProfile filtered
  let r ← env.openOutput outputPath
  let d ← env.readBandE r 1
  let x_array :=
    (((xrDataArrayInt32 filtered).write_nodata (-200)).write_transform
        masked.2.1).set_crs "ESRI: 54009"
  let gdf0 ← env.vectorizeE x_array
  let gdf := renameCols gdf0
  let _ ← env.renderE gdf
  return (band, window, band_cropped, filtered, outProfile, d, gdf)

/-- One operation of a notebook, at the granularity of individual
library calls and display statements, with the arguments the claims
speak about. -/
inductive Op where
  | openRaster (path : String)
  | printMeta
  | readBand (idx : Nat)
  | printArray
  | showPlot
  | buildBBox (minx miny maxx maxy : ℚ) (crs : String)
  | reproject (dst : String)
  | geometryMask (crop allTouched : Bool)
  | readBandWindowed (idx : Nat)
  | threshold (cutoff fill : ℚ)
  | printProfileOp
  | updateProfileOp
  | writeRaster (path : String) (idx : Nat)
  | toXArray (dtype : String) (nodata : Int) (crs : String)
  | vectorizeOp
  | renameColumns
  | render
  deriving DecidableEq, Repr

/-- The operations of the longer notebook, cell by cell, in source
order: open and inspect, read band 1, build and reproject the bounding
box, mask and windowed read, threshold, profile handling and write,
re-read, labeled-array conversion, vectorization and rendering. -/
def longOps : List Op :=
  [Op.openRaster inputPath,
   Op.printMeta,
   Op.readBand 1, Op.printArray, Op.showPlot,
   Op.buildBBox (-36955 / 10000) (511869 / 10000) (-23002 / 10000)
     (519855 / 10000) "EPSG: 4326",
   Op.reproject "ESRI: 54009",
   Op.geometryMask true true,
   Op.readBandWindowed 1, Op.showPlot,
   Op.threshold 5000 (-200), Op.showPlot, Op.printProfileOp,
   Op.updateProfileOp, Op.writeRaster outputPath 1,
   Op.openRaster outputPath, Op.readBand 1, Op.printProfileOp,
   Op.showPlot,
   Op.toXArray "int32" (-200) "ESRI: 54009", Op.printArray,
   Op.vectorizeOp, Op.renameColumns, Op.render]

/-- The operations of the shorter notebook `raster.ipynb`, cell by
cell, in source order: it stops after the windowed read. -/
def shortOps : List Op :=
  [Op.openRaster inputPath,
   Op.printMeta,
   Op.readBand 1, Op.printArray, Op.showPlot,
   Op.buildBBox (-36955 / 10000) (511869 / 10000) (-23002 / 10000)
     (519855 / 10000) "EPSG: 4326",
   Op.reproject "ESRI: 54009",
   Op.geometryMask true true,
   Op.readBandWindowed 1, Op.showPlot]

/-- The flow stated by the specification, instantiated at this
notebook's arguments: open file, print metadata, read band, compute the
crop window, read the cropped band, threshold, write the new file,
re-read it (open plus read), convert to a labeled array, vectorize,
render. -/
def specFlowOps : List Op :=
  [Op.openRaster inputPath,
   Op.printMeta,
   Op.readBand 1,
   Op.geometryMask true true,
   Op.readBandWindowed 1,
   Op.threshold 5000 (-200),
   Op.writeRaster outputPath 1,
   Op.openRaster outputPath,
   Op.readBand 1,
   Op.toXArray "int32" (-200) "ESRI: 54009",
   Op.vectorizeOp,
   Op.render]

/-- Display-only statements: prints, plots and the cosmetic column
rename; they inspect or present values and transform no raster data. -/
def isDisplayOp : Op → Bool
  | Op.printArray => true
  | Op.showPlot => true
  | Op.printProfileOp => true
  | Op.renameColumns => true
  | _ => false

/-- Sub-steps of an operation the specification's flow already lists:
building and reprojecting the bounding box are part of computing the
crop window, and the profile update is part of writing the new file. -/
def isSubstepOp : Op → Bool
  | Op.buildBBox _ _ _ _ _ => true
  | Op.reproject _ => true
  | Op.updateProfileOp => true
  | _ => false

/-- Predicate picking out the geometry-mask call, for counting how
often the notebooks invoke it. -/
def isGeometryMaskOp : Op → Bool
  | Op.geometryMask _ _ => true
  | _ => false

/-- Filtering one cell twice is the same as filtering it once. -/
theorem fcell_idem (x : Cell) : fcell (fcell x) = fcell x := by
  by_cases h : (5000 : ℚ) < x <;> simp [fcell, h]

/-- A filtered cell is either kept (so above 5000) or the sentinel. -/
theorem fcell_cases (x : Cell) : 5000 < fcell x ∨ fcell x = -200 := by
  by_cases h : (5000 : ℚ) < x <;> simp [fcell, h]

/-- C1: in the filtering step, the output band has the shape of the
cropped input band, and each output cell equals the input cell when
that cell is strictly greater than 5000 and the nodata sentinel -200
otherwise; nothing else is changed. -/
theorem claim_C1_threshold_cellwise (b : Band) (i j : Nat)
    (hi : i < b.length) (hj : j < (b.getD i []).length) :
    bandShape (filtered_band b) = bandShape b ∧
    cellD (filtered_band b) i j =
      (if 5000 < cellD b i j then cellD b i j else -200) := by
  have hbi : b.getD i [] = b[i] := List.getD_eq_getElem b ([] : List Cell) hi
  rw [hbi] at hj
  constructor
  · simp [bandShape, filtered_band]
  · have hi2 : i < (filtered_band b).length := by
      simpa [filtered_band] using hi
    unfold cellD
    rw [hbi, List.getD_eq_getElem (b[i]) (0 : Cell) hj,
      List.getD_eq_getElem (filtered_band b) ([] : List Cell) hi2]
    have hmap : (filtered_band b)[i] = List.map fcell b[i] := by
      simp [filtered_band]
    rw [hmap]
    have hj2 : j < (List.map fcell b[i]).length := by simpa using hj
    rw [List.getD_eq_getElem (List.map fcell b[i]) (0 : Cell) hj2, List.getElem_map]
    rfl

/-- C1 at a concrete band: the theorem applied to a 2x2 example. -/
theorem claim_C1_threshold_cellwise_witness :
    bandShape (filtered_band [[6000, 3], [-200, 5000]]) =
      bandShape [[6000, 3], [-200, 5000]] ∧
    cellD (filtered_band [[6000, 3], [-200, 5000]]) 0 1 =
      (if 5000 < cellD [[6000, 3], [-200, 5000]] 0 1 then
        cellD [[6000, 3], [-200, 5000]] 0 1 else -200) :=
  claim_C1_threshold_cellwise [[6000, 3], [-200, 5000]] 0 1
    (by decide) (by decide)

/-- C9: the threshold filter is idempotent; applied to its own output
it changes nothing. -/
theorem claim_C9_threshold_idempotent (b : Band) :
    filtered_band (filtered_band b) = filtered_band b := by
  unfold filtered_band
  rw [List.map_map]
  apply List.map_congr_left
  intro row _
  simp only [Function.comp_apply, List.map_map]
  apply List.map_congr_left
  intro x _
  exact fcell_idem x

/-- Truncating a filtered cell: a kept value lands at or above 5000,
the sentinel stays exactly -200. -/
theorem truncToInt_fcell (x : Cell) :
    5000 ≤ truncToInt (fcell x) ∨ truncToInt (fcell x) = -200 := by
  by_cases h : (5000 : ℚ) < x
  · left
    have hx : fcell x = x := by simp [fcell, h]
    have h0 : (0 : ℚ) ≤ x := by linarith
    rw [hx]
    simp only [truncToInt, if_pos h0]
    exact Rat.le_floor.mpr (by push_cast; linarith)
  · right
    have hx : fcell x = -200 := by simp [fcell, h]
    rw [hx]
    decide

/-- The exact fractional cell value 5000.5, representable in float32.
It passes the strict threshold but truncates to exactly 5000. -/
def halfCell : ℚ := Rat.mk' 10001 2 (by norm_num) (by norm_num)

/-- An environment exhibiting the truncation boundary: the input band
is the single cell 5000.5 and the mask window selects all of it. -/
def cexEnv : Env :=
  { inputDataset :=
      { profile :=
          { driver := "GTiff", dtype := "float32", nodata := -200,
            width := 1, height := 1, count := 1, crs := "ESRI:54009",
            transform := { a := 1000, b := 0, c := 0, d := 0, e := -1000,
                           f := 0 },
            extra := [] },
        band1 := [[halfCell]] },
    to_crs := fun g _ => g,
    raster_geometry_mask := fun _ _ _ _ =>
      ([[false]], { a := 1000, b := 0, c := 0, d := 0, e := -1000, f := 0 },
       { col_off := 0, row_off := 0, width := 1, height := 1 }),
    vectorizeFn := fun _ => { colNames := [], rows := [] },
    store0 := [] }

/-- C10 fails as stated: with the cell 5000.5 in the cropped band, the
filtered band keeps it (it is strictly above 5000), but the int32 cast
performed before vectorization truncates it to exactly 5000, which is
neither strictly greater than 5000 nor equal to -200.  So not every
cell of the array passed to vectorization satisfies the stated
dichotomy. -/
theorem claim_C10_counterexample :
    (runLong cexEnv).filtered = [[halfCell]] ∧ (5000 : ℚ) < halfCell ∧
    (runLong cexEnv).x_array.data = [[(5000 : Int)]] ∧
    ¬ (∀ row ∈ (runLong cexEnv).x_array.data, ∀ x ∈ row,
        5000 < x ∨ x = (-200 : Int)) := by
  refine ⟨by decide, by decide, by decide, ?_⟩
  intro h
  have := h [(5000 : Int)] (by decide) 5000 (by decide)
  exact absurd this (by decide)

/-- C10 amended: every cell of the filtered band (hence of the band
written to the output file, which is that same array) is strictly
greater than 5000 or exactly -200; after the int32 cast applied before
vectorization the guarantee weakens to greater than or equal to 5000
or exactly -200, since a fractional value just above 5000 truncates to
5000.  The pipeline equalities tie the three arrays together. -/
theorem claim_C10_amended (b : Band) :
    (∀ row ∈ filtered_band b, ∀ x ∈ row, 5000 < x ∨ x = -200) ∧
    (∀ row ∈ astypeInt32 (filtered_band b), ∀ x ∈ row,
        5000 ≤ x ∨ x = (-200 : Int)) ∧
    (∀ env : Env,
      (runLong env).filtered = filtered_band (runLong env).band_cropped ∧
      findFile (runLong env).store outputPath =
        some ((runLong env).outProfile, (runLong env).filtered) ∧
      (runLong env).x_array.data = astypeInt32 (runLong env).filtered) := by
  refine ⟨?_, ?_, ?_⟩
  · intro row hrow x hx
    simp only [filtered_band, List.mem_map] at hrow
    obtain ⟨r, _, rfl⟩ := hrow
    simp only [List.mem_map] at hx
    obtain ⟨y, _, rfl⟩ := hx
    exact fcell_cases y
  · intro row hrow x hx
    simp only [astypeInt32, filtered_band, List.map_map, List.mem_map]
      at hrow
    obtain ⟨r, _, rfl⟩ := hrow
    simp only [Function.comp_apply, List.map_map, List.mem_map] at hx
    obtain ⟨y, _, rfl⟩ := hx
    exact truncToInt_fcell y
  · intro env
    refine ⟨rfl, ?_, rfl⟩
    simp [runLong, writeFile, findFile]

/-- C10 amended at concrete cells: 6000 is kept and 3 becomes the
sentinel, both for the filtered band and after the int32 cast. -/
theorem claim_C10_amended_witness :
    (5000 < (6000 : ℚ) ∨ (6000 : ℚ) = -200) ∧
    (5000 ≤ (6000 : Int) ∨ (6000 : Int) = -200) ∧
    (5000 < (-200 : ℚ) ∨ (-200 : ℚ) = -200) :=
  ⟨(claim_C10_amended [[6000, 3]]).1 [6000, -200] (by decide) 6000
      (by decide),
   (claim_C10_amended [[6000, 3]]).2.1 [6000, -200] (by decide) 6000
      (by decide),
   (claim_C10_amended [[6000, 3]]).1 [6000, -200] (by decide) (-200)
      (by decide)⟩

/-- C2: the profile used to write the output raster agrees with the
input dataset's profile on every field except the transform, the
height and the width, which take the crop transform and the filtered
band's dimensions; driver, data type, nodata, layer count, CRS and all
remaining creation options are carried over unchanged.  The final
conjunct places this inside the pipeline: the written profile is
exactly this update of the input profile. -/
theorem claim_C2_profile_update (p : Profile) (aff : Affine)
    (h w : Nat) :
    (p.update aff h w).transform = aff ∧
    (p.update aff h w).height = h ∧
    (p.update aff h w).width = w ∧
    (p.update aff h w).driver = p.driver ∧
    (p.update aff h w).dtype = p.dtype ∧
    (p.update aff h w).nodata = p.nodata ∧
    (p.update aff h w).count = p.count ∧
    (p.update aff h w).crs = p.crs ∧
    (p.update aff h w).extra = p.extra ∧
    ∀ env : Env, (runLong env).outProfile =
      env.inputDataset.profile.update (runLong env).aff
        (bandHeight (runLong env).filtered)
        (bandWidth (runLong env).filtered) :=
  ⟨rfl, rfl, rfl, rfl, rfl, rfl, rfl, rfl, rfl, fun _ => rfl⟩

/-- C3: re-opening the written raster file yields back exactly the
filtered band as band 1 and exactly the profile it was written with:
write followed by read is a round trip through the file store. -/
theorem claim_C3_write_read_roundtrip (env : Env) :
    (runLong env).reread.map Dataset.read1 =
      some (runLong env).filtered ∧
    (runLong env).reread.map Dataset.profile =
      some (runLong env).outProfile := by
  constructor <;> simp [runLong, openFile, writeFile, findFile,
    Dataset.read1]

/-- C5: the shorter notebook's operation trace is exactly the first ten
operations of the longer notebook's trace, with identical arguments,
and on any environment the two notebooks compute identical values for
the dataset, the printed attributes, the full band, the reprojected
bounding box, the crop window and the cropped band. -/
theorem claim_C5_notebooks_agree :
    longOps.take 10 = shortOps ∧
    ∀ env : Env,
      (runShort env).dataset = (runLong env).dataset ∧
      (runShort env).printedMeta = (runLong env).printedMeta ∧
      (runShort env).band = (runLong env).band ∧
      (runShort env).bbox_gdf = (runLong env).bbox_gdf ∧
      (runShort env).window = (runLong env).window ∧
      (runShort env).band_cropped = (runLong env).band_cropped :=
  ⟨rfl, fun _ => ⟨rfl, rfl, rfl, rfl, rfl, rfl⟩⟩

/-- C7: each notebook calls the geometry-masking routine exactly once,
with `crop` and `all_touched` both true, on the geometry of the
bounding box reprojected to ESRI:54009; the window it returns is
passed, unmodified, to the windowed band read, and nothing else
contributes to the crop. -/
theorem claim_C7_single_mask_call :
    longOps.filter isGeometryMaskOp = [Op.geometryMask true true] ∧
    shortOps.filter isGeometryMaskOp = [Op.geometryMask true true] ∧
    ∀ env : Env,
      (runLong env).bbox_gdf = env.to_crs bboxFrameWGS84 "ESRI: 54009" ∧
      (runLong env).window =
        (env.raster_geometry_mask env.inputDataset
          (runLong env).bbox_gdf.geoms true true).2.2 ∧
      (runLong env).aff =
        (env.raster_geometry_mask env.inputDataset
          (runLong env).bbox_gdf.geoms true true).2.1 ∧
      (runLong env).band_cropped =
        env.inputDataset.read1w (runLong env).window :=
  ⟨rfl, rfl, fun _ => ⟨rfl, rfl, rfl, rfl⟩⟩

/-- C4: the specified flow (open, print metadata, read band, compute
the crop window, read cropped band, threshold, write, re-read, convert
to a labeled array, vectorize, render) occurs in the longer notebook in
exactly that order, and every remaining operation is either a display
statement or a sub-step of a listed operation: there is no other
processing. -/
theorem claim_C4_linear_flow :
    List.Sublist specFlowOps longOps ∧
    ∀ op ∈ longOps,
      op ∈ specFlowOps ∨ isDisplayOp op = true ∨ isSubstepOp op = true :=
  ⟨by decide, by decide⟩

/-- C4 at a concrete operation: the threshold step is part of the trace
and of the specified flow. -/
theorem claim_C4_linear_flow_witness :
    Op.threshold 5000 (-200) ∈ longOps ∧
    (Op.threshold 5000 (-200) ∈ specFlowOps ∨
      isDisplayOp (Op.threshold 5000 (-200)) = true ∨
      isSubstepOp (Op.threshold 5000 (-200)) = true) :=
  ⟨by decide, claim_C4_linear_flow.2 (Op.threshold 5000 (-200))
    (by decide)⟩

/-- Modelled from the spec: the nodata sentinel of the input GeoTIFF.
The data file itself is not part of the repository; the specification
and the notebook prose state that its nodata value is -200. -/
def inputNodata : Cell := -200

/-- C6: the input raster's nodata sentinel is -200, the same value the
filter substitutes for every discarded cell, the same value declared as
nodata of the labeled array passed to vectorization, and (because the
profile update leaves nodata untouched) the nodata value of the written
output raster whenever the input profile carries the sentinel. -/
theorem claim_C6_nodata_consistency :
    inputNodata = -200 ∧
    (∀ x : Cell, ¬ 5000 < x → fcell x = -200) ∧
    ∀ env : Env,
      (runLong env).x_array.nodata = some (-200) ∧
      (env.inputDataset.profile.nodata = inputNodata →
        (runLong env).outProfile.nodata = -200) := by
  refine ⟨rfl, fun x h => by simp [fcell, h], fun env => ⟨rfl, fun h => ?_⟩⟩
  simpa [runLong, Profile.update, inputNodata] using h

/-- An environment whose input profile carries the sentinel -200, used
to evaluate the nodata property concretely. -/
def plainEnv : Env :=
  { inputDataset :=
      { profile :=
          { driver := "GTiff", dtype := "float32", nodata := -200,
            width := 1, height := 1, count := 1, crs := "ESRI:54009",
            transform := { a := 1000, b := 0, c := 0, d := 0, e := -1000,
                           f := 0 },
            extra := [] },
        band1 := [[0]] },
    to_crs := fun g _ => g,
    raster_geometry_mask := fun _ _ _ _ =>
      ([[false]], { a := 1000, b := 0, c := 0, d := 0, e := -1000, f := 0 },
       { col_off := 0, row_off := 0, width := 1, height := 1 }),
    vectorizeFn := fun _ => { colNames := [], rows := [] },
    store0 := [] }

/-- C6 at concrete inputs: the cell 3 is substituted by -200, and the
output profile of the concrete run keeps the sentinel. -/
theorem claim_C6_nodata_consistency_witness :
    fcell 3 = -200 ∧ (runLong plainEnv).outProfile.nodata = -200 :=
  ⟨claim_C6_nodata_consistency.2.1 3 (by decide),
   (claim_C6_nodata_consistency.2.2 plainEnv).2 rfl⟩

/-- C8: the notebooks install no handler, retry or translation around
any external call: whichever external call is the first to fail, its
error is the whole run's result, unchanged, and nothing after it
executes.  One conjunct per call site, in source order: opening the
input, reading the band, reprojecting the bounding box, the geometry
mask, the windowed read, the write, re-opening the output, re-reading
the band, vectorizing, and rendering. -/
theorem claim_C8_error_propagation (env : EnvE) (e : ExtErr) :
    (env.openInput inputPath = .error e → runNotebookE env = .error e) ∧
    (∀ ds, env.openInput inputPath = .ok ds →
      env.readBandE ds 1 = .error e → runNotebookE env = .error e) ∧
    (∀ ds band, env.openInput inputPath = .ok ds →
      env.readBandE ds 1 = .ok band →
      env.to_crsE bboxFrameWGS84 "ESRI: 54009" = .error e →
      runNotebookE env = .error e) ∧
    (∀ ds band g, env.openInput inputPath = .ok ds →
      env.readBandE ds 1 = .ok band →
      env.to_crsE bboxFrameWGS84 "ESRI: 54009" = .ok g →
      env.raster_geometry_maskE ds g.geoms true true = .error e →
      runNotebookE env = .error e) ∧
    (∀ ds band g m, env.openInput inputPath = .ok ds →
      env.readBandE ds 1 = .ok band →
      env.to_crsE bboxFrameWGS84 "ESRI: 54009" = .ok g →
      env.raster_geometry_maskE ds g.geoms true true = .ok m →
      env.readBandWindowE ds 1 m.2.2 = .error e →
      runNotebookE env = .error e) ∧
    (∀ ds band g m bc, env.openInput inputPath = .ok ds →
      env.readBandE ds 1 = .ok band →
      env.to_crsE bboxFrameWGS84 "ESRI: 54009" = .ok g →
      env.raster_geometry_maskE ds g.geoms true true = .ok m →
      env.readBandWindowE ds 1 m.2.2 = .ok bc →
      env.writeOutput outputPath
        (ds.profile.update m.2.1 (bandHeight (filtered_band bc))
          (bandWidth (filtered_band bc))) (filtered_band bc) = .error e →
      runNotebookE env = .error e) ∧
    (∀ ds band g m bc, env.openInput inputPath = .ok ds →
      env.readBandE ds 1 = .ok band →
      env.to_crsE bboxFrameWGS84 "ESRI: 54009" = .ok g →
      env.raster_geometry_maskE ds g.geoms true true = .ok m →
      env.readBandWindowE ds 1 m.2.2 = .ok bc →
      env.writeOutput outputPath
        (ds.profile.update m.2.1 (bandHeight (filtered_band bc))
          (bandWidth (filtered_band bc))) (filtered_band bc) = .ok () →
      env.openOutput outputPath = .error e →
      runNotebookE env = .error e) ∧
    (∀ ds band g m bc r, env.openInput inputPath = .ok ds →
      env.readBandE ds 1 = .ok band →
      env.to_crsE bboxFrameWGS84 "ESRI: 54009" = .ok g →
      env.raster_geometry_maskE ds g.geoms true true = .ok m →
      env.readBandWindowE ds 1 m.2.2 = .ok bc →
      env.writeOutput outputPath
        (ds.profile.update m.2.1 (bandHeight (filtered_band bc))
          (bandWidth (filtered_band bc))) (filtered_band bc) = .ok () →
      env.openOutput outputPath = .ok r →
      env.readBandE r 1 = .error e →
      runNotebookE env = .error e) ∧
    (∀ ds band g m bc r d2, env.openInput inputPath = .ok ds →
      env.readBandE ds 1 = .ok band →
      env.to_crsE bboxFrameWGS84 "ESRI: 54009" = .ok g →
      env.raster_geometry_maskE ds g.geoms true true = .ok m →
      env.readBandWindowE ds 1 m.2.2 = .ok bc →
      env.writeOutput outputPath
        (ds.profile.update m.2.1 (bandHeight (filtered_band bc))
          (bandWidth (filtered_band bc))) (filtered_band bc) = .ok () →
      env.openOutput outputPath = .ok r →
      env.readBandE r 1 = .ok d2 →
      env.vectorizeE ((((xrDataArrayInt32
          (filtered_band bc)).write_nodata (-200)).write_transform
          m.2.1).set_crs "ESRI: 54009") = .error e →
      runNotebookE env = .error e) ∧
    (∀ ds band g m bc r d2 gdf0, env.openInput inputPath = .ok ds →
      env.readBandE ds 1 = .ok band →
      env.to_crsE bboxFrameWGS84 "ESRI: 54009" = .ok g →
      env.raster_geometry_maskE ds g.geoms true true = .ok m →
      env.readBandWindowE ds 1 m.2.2 = .ok bc →
      env.writeOutput outputPath
        (ds.profile.update m.2.1 (bandHeight (filtered_band bc))
          (bandWidth (filtered_band bc))) (filtered_band bc) = .ok () →
      env.openOutput outputPath = .ok r →
      env.readBandE r 1 = .ok d2 →
      env.vectorizeE ((((xrDataArrayInt32
          (filtered_band bc)).write_nodata (-200)).write_transform
          m.2.1).set_crs "ESRI: 54009") = .ok gdf0 →
      env.renderE (renameCols gdf0) = .error e →
      runNotebookE env = .error e) := by
  refine ⟨fun h1 => ?_,
    fun ds h1 h2 => ?_,
    fun ds band h1 h2 h3 => ?_,
    fun ds band g h1 h2 h3 h4 => ?_,
    fun ds band g m h1 h2 h3 h4 h5 => ?_,
    fun ds band g m bc h1 h2 h3 h4 h5 h6 => ?_,
    fun ds band g m bc h1 h2 h3 h4 h5 h6 h7 => ?_,
    fun ds band g m bc r h1 h2 h3 h4 h5 h6 h7 h8 => ?_,
    fun ds band g m bc r d2 h1 h2 h3 h4 h5 h6 h7 h8 h9 => ?_,
    fun ds band g m bc r d2 gdf0 h1 h2 h3 h4 h5 h6 h7 h8 h9 h10 => ?_⟩ <;>
  simp [runNotebookE, *, Except.instMonad, Except.bind, Except.map]

/-- An environment in which opening the input file fails with a
missing-file error and every other call succeeds. -/
def failEnv : EnvE :=
  { openInput := fun _ => .error (ExtErr.fileError "No such file"),
    to_crsE := fun g _ => .ok g,
    raster_geometry_maskE := fun _ _ _ _ =>
      .ok ([[false]],
        { a := 1000, b := 0, c := 0, d := 0, e := -1000, f := 0 },
        { col_off := 0, row_off := 0, width := 1, height := 1 }),
    readBandE := fun d _ => .ok d.band1,
    readBandWindowE := fun d _ w => .ok (d.read1w w),
    writeOutput := fun _ _ _ => .ok (),
    openOutput := fun _ => .error (ExtErr.fileError "No such file"),
    vectorizeE := fun _ => .ok { colNames := [], rows := [] },
    renderE := fun _ => .ok () }

/-- C8 at a concrete environment: a missing input file surfaces as the
run's result, untranslated. -/
theorem claim_C8_error_propagation_witness :
    runNotebookE failEnv = .error (ExtErr.fileError "No such file") :=
  (claim_C8_error_propagation failEnv (ExtErr.fileError "No such file")).1
    rfl
